import Mathlib

/-!
# Shallow embedding of the voice-message recorder and player widgets

The repository contains three JSX sources, each holding one or two variants
of a React component:

* `src/components/Chat/VoicePlayer.jsx` — the playback widget (one variant,
  namespace `VoicePlayer`);
* `src/components/Chat/VoiceRecorder.jsx` — two recorder variants: the first
  one with a playback preview (`RecorderA`), the second one with
  pause/resume and a Re-record button (`RecorderB`);
* `src/unnamed/part_000` — two further recorder variants: the first one
  auto-sends from the `onstop` handler (`P0A`), the second one sends from a
  Send button guarded by `audioBlob && recordingTime > 0` (`P0B`).

Modelling conventions:

* JS numbers are `ℚ`; the possibly-NaN argument of the player's
  `formatTime` is `Option ℚ` with `none` standing for NaN.
* A JS object with optional keys becomes a structure with `Option` fields
  (`none` = the key is absent).
* React state closures are modelled explicitly: a handler installed by
  `startRecording` captures the value the state variable had in the render
  in which `startRecording` was invoked (field `capturedRt`), not the value
  at the time the handler later fires.
* The host event loop (recorder `stop` events, `setTimeout` callbacks) is a
  FIFO queue stored in the state; firing the head of the queue is an
  explicit transition, so a trace is a list of user actions and host
  callbacks.
* `MediaRecorder.stop()` sets the recorder's state to `inactive`
  synchronously and queues the `stop` event; `track.stop()` ends a capture
  track synchronously; assigning `HTMLMediaElement.currentTime` seeks,
  which the platform clamps to the seekable range `[0, duration]`.
-/

/-- A JS `Blob`: we keep the two observable fields the code reads,
`size` (byte count) and `type` (MIME string). -/
structure Blob where
  size : Nat
  type : String
deriving DecidableEq, Repr

/-- The voice-message object handed to `onSend`, as a JS record with
optional keys (`none` = key absent).  `rawDuration` is the numeric
`rawDuration` key used by `RecorderA`/`P0A`/`P0B`; `duration` is the
formatted-string `duration` key used by `RecorderB`; `hasAudioUrl` records
whether an `audioUrl` key was attached (`RecorderB` only). -/
structure VoiceMessage where
  type : String
  rawDuration : Option ℚ := none
  duration : Option String := none
  size : Nat
  mimeType : Option String := none
  hasAudioUrl : Bool := false
deriving DecidableEq, Repr

/-- Observable side effects of a handler other than state mutation:
a `console.error` log, the blocking `alert`, a call to the `onClose`
callback, a call to the `onSend` callback, and a `play()` request issued to
the media element. -/
inductive Effect where
  | logE
  | alertE
  | closeE
  | sendE
  | playE
deriving DecidableEq, Repr

/-- JS `Math.trunc`-style truncation used by the `%` operator on numbers:
round toward zero. -/
def jsTrunc (q : ℚ) : ℤ :=
  if 0 ≤ q then ⌊q⌋ else ⌈q⌉

/-- The JS remainder `a % b` on numbers: `a - b * trunc (a / b)`. -/
def jsMod (a b : ℚ) : ℚ :=
  a - b * (jsTrunc (a / b) : ℚ)

/-- JS `String.prototype.padStart(targetLength, c)` for a one-character pad
string: left-pad with `c` up to `targetLength`, return the string unchanged
if it is already long enough. -/
def padStart (s : String) (targetLength : Nat) (c : Char) : String :=
  if s.length < targetLength then
    String.mk (List.replicate (targetLength - s.length) c) ++ s
  else s

namespace VoicePlayer

/-- The slice of an `HTMLAudioElement` the player touches: current
position, duration, mute flag and paused flag. -/
structure AudioEl where
  currentTime : ℚ
  duration : ℚ
  muted : Bool
  paused : Bool
deriving DecidableEq, Repr

/-- Platform model: assigning `HTMLMediaElement.currentTime` runs the seek
algorithm, which clamps the new playback position to the seekable range
`[0, duration]`. -/
def setCurrentTime (a : AudioEl) (t : ℚ) : AudioEl :=
  { a with currentTime := max 0 (min t a.duration) }

/-- The React state of `VoicePlayer` (`useState` hooks, in source order). -/
structure PState where
  isPlaying : Bool
  currentTime : ℚ
  audioDuration : ℚ
  isMuted : Bool
  isLoading : Bool
deriving DecidableEq, Repr

/-- Initial `VoicePlayer` state, from the `useState` initialisers. -/
def init : PState :=
  { isPlaying := false, currentTime := 0, audioDuration := 0,
    isMuted := false, isLoading := true }

/-- A freshly created `<audio>` element: not muted, paused, position 0. -/
def initAudio (duration : ℚ) : AudioEl :=
  { currentTime := 0, duration := duration, muted := false, paused := true }

/-- `handleError`: `setIsLoading(false); console.error(...)`. -/
def handleError (s : PState) : PState × List Effect :=
  ({ s with isLoading := false }, [Effect.logE])

/-- `togglePlayPause`: pause and clear `isPlaying` when playing; otherwise
issue `play()` (whose rejection is only logged by the `.catch` handler) and
set `isPlaying` optimistically.  `playRejects` is the host's answer to the
`play()` request. -/
def togglePlayPause (s : PState) (a : Option AudioEl) (playRejects : Bool) :
    PState × Option AudioEl × List Effect :=
  match a with
  | none => (s, none, [])
  | some a =>
    if s.isPlaying then
      ({ s with isPlaying := false }, some { a with paused := true }, [])
    else if playRejects then
      ({ s with isPlaying := true }, some a, [Effect.playE, Effect.logE])
    else
      ({ s with isPlaying := true }, some { a with paused := false }, [Effect.playE])

/-- `toggleMute`: `audio.muted = !isMuted; setIsMuted(!isMuted)` — both
writes are driven by the React state `isMuted`, not by the element. -/
def toggleMute : PState × Option AudioEl → PState × Option AudioEl
  | (s, none) => (s, none)
  | (s, some a) =>
    ({ s with isMuted := !s.isMuted }, some { a with muted := !s.isMuted })

/-- `handleSeek`: guarded by `!audio || audioDuration === 0`; otherwise
computes `newTime = (clickX / rect.width) * audioDuration`, assigns it to
`audio.currentTime` (platform-clamped) and stores the unclamped value in
the React state `currentTime`. -/
def handleSeek (clickX width : ℚ) (s : PState) (a : Option AudioEl) :
    PState × Option AudioEl :=
  match a with
  | none => (s, none)
  | some a =>
    if s.audioDuration = 0 then (s, some a)
    else
      let newTime := clickX / width * s.audioDuration
      ({ s with currentTime := newTime }, some (setCurrentTime a newTime))

/-- `formatTime`: `'0:00'` for NaN (modelled as `none`) or `0`, otherwise
`Math.floor(seconds / 60)` minutes and the two-digit zero-padded
`Math.floor(seconds % 60)` seconds. -/
def formatTime : Option ℚ → String
  | none => "0:00"
  | some seconds =>
    if seconds = 0 then "0:00"
    else
      toString ⌊seconds / 60⌋ ++ ":" ++
        padStart (toString ⌊jsMod seconds 60⌋) 2 '0'

end VoicePlayer

namespace RecorderA

/-- React state and refs of the first `VoiceRecorder.jsx` variant, plus the
queue of pending recorder `stop` events and the observable call history.
`capturedRt` is the `recordingTime` value captured by the closures that the
most recent `startRecording` invocation installed (`onstop` reads it);
`pendingOnstop` holds, for each queued `stop` event, the capture of the
recorder it belongs to.  `chunks` abstracts `chunksRef` by the number of
data fragments collected. -/
structure State where
  isRecording : Bool
  recordingTime : Nat
  audioBlob : Option Blob
  audioUrl : Bool
  duration : ℚ
  capturedRt : Nat
  recorderActive : Bool
  streamLive : Bool
  chunks : Nat
  pendingOnstop : List Nat
  sent : List VoiceMessage
  closeCalls : Nat
deriving DecidableEq, Repr

/-- The state of a closed (or not yet opened) widget: all `useState`
initialisers, empty refs. -/
def init : State :=
  { isRecording := false, recordingTime := 0, audioBlob := none,
    audioUrl := false, duration := 0, capturedRt := 0,
    recorderActive := false, streamLive := false, chunks := 0,
    pendingOnstop := [], sent := [], closeCalls := 0 }

/-- `startRecording`, parametrised by the host's answers: `granted` is the
`getUserMedia` outcome, `ctorOk` tells whether the `MediaRecorder`
constructor succeeds.  On success the closures capture the current
`recordingTime`, the stream and recorder are installed, and
`setIsRecording(true); setRecordingTime(0)` run.  Any exception reaches the
single `catch`: log, alert, `onClose()`.  When the constructor throws, the
stream was already stored in `streamRef`, so it stays live. -/
def startRecording (s : State) (granted ctorOk : Bool) : State × List Effect :=
  if granted then
    if ctorOk then
      ({ s with capturedRt := s.recordingTime, streamLive := true,
                recorderActive := true, chunks := 0,
                isRecording := true, recordingTime := 0 }, [])
    else
      ({ s with streamLive := true }, [Effect.logE, Effect.alertE, Effect.closeE])
  else
    (s, [Effect.logE, Effect.alertE, Effect.closeE])

/-- `handleSend`: only acts when `audioBlob` is non-null; builds
`{ type:'voice', audioBlob, rawDuration: duration, size, mimeType }`,
calls `onSend`, then `onClose`. -/
def handleSend (s : State) : State :=
  match s.audioBlob with
  | none => s
  | some b =>
    { s with
      sent := s.sent ++
        [{ type := "voice", rawDuration := some s.duration, size := b.size,
           mimeType := some b.type }],
      closeCalls := s.closeCalls + 1 }

/-- `cleanup`: stop the recorder if it is not inactive (queueing its `stop`
event), stop every stream track, revoke the object URL, clear the interval
and reset all state. -/
def cleanup (s : State) : State :=
  let s :=
    if s.recorderActive then
      { s with recorderActive := false,
               pendingOnstop := s.pendingOnstop ++ [s.capturedRt] }
    else s
  { s with streamLive := false, isRecording := false, recordingTime := 0,
           audioBlob := none, audioUrl := false, duration := 0, chunks := 0 }

/-- Transition labels: widget opening with the permission granted, a
1-second timer tick, the Stop button, a queued recorder `stop` event
firing, the playback element reporting its metadata, the Send button and
the Cancel button. -/
inductive Ev where
  | openGrant
  | tick
  | stopClick
  | onstopFire
  | metadataLoaded (d : ℚ)
  | sendClick
  | cancelClick

/-- One transition of the widget.  `onstopFire` pops the oldest queued
`stop` event: the handler assembles the blob from the chunks collected so
far, stores it with an object URL, and runs `setDuration(recordingTime)`
on its *captured* `recordingTime`. -/
def step (s : State) : Ev → State
  | Ev.openGrant => (startRecording s true true).1
  | Ev.tick =>
    if s.isRecording then
      { s with recordingTime := s.recordingTime + 1, chunks := s.chunks + 1 }
    else s
  | Ev.stopClick =>
    if s.recorderActive then
      { s with recorderActive := false,
               pendingOnstop := s.pendingOnstop ++ [s.capturedRt],
               streamLive := false, isRecording := false }
    else
      { s with streamLive := false, isRecording := false }
  | Ev.onstopFire =>
    match s.pendingOnstop with
    | [] => s
    | c :: rest =>
      { s with pendingOnstop := rest,
               audioBlob := some ⟨s.chunks, "audio/webm"⟩,
               audioUrl := true,
               duration := (c : ℚ) }
  | Ev.metadataLoaded d =>
    if s.audioUrl then { s with duration := d } else s
  | Ev.sendClick => handleSend s
  | Ev.cancelClick =>
    let s := cleanup s
    { s with closeCalls := s.closeCalls + 1 }

/-- Run a trace of events from a state. -/
def run (s : State) (evs : List Ev) : State :=
  evs.foldl step s

/-- `playAudio` of the first variant: issue `play()` (rejections only
logged by `.catch`) and `setIsPlaying(true)` unconditionally; the returned
`Bool` is the new `isPlaying` value. -/
def playAudio (playRejects : Bool) : Bool × List Effect :=
  (true, if playRejects then [Effect.playE, Effect.logE] else [Effect.playE])

end RecorderA

namespace P0A

/-- Pending host callbacks of the auto-send recorder: a queued recorder
`stop` event carrying the capture of its closure, or the `setTimeout`
callback the `onstop` handler scheduled, carrying the captured
`recordingTime` and the blob it closed over. -/
inductive PendingTask where
  | onstopT (captured : Nat)
  | sendTimeoutT (captured : Nat) (b : Blob)
deriving DecidableEq, Repr

/-- React state, refs, callback queue and observable call history of the
first `part_000` variant. -/
structure State where
  isRecording : Bool
  recordingTime : Nat
  audioBlob : Option Blob
  capturedRt : Nat
  recorderActive : Bool
  streamLive : Bool
  chunks : Nat
  pending : List PendingTask
  sent : List VoiceMessage
  closeCalls : Nat
deriving DecidableEq, Repr

/-- Closed-widget state. -/
def init : State :=
  { isRecording := false, recordingTime := 0, audioBlob := none,
    capturedRt := 0, recorderActive := false, streamLive := false,
    chunks := 0, pending := [], sent := [], closeCalls := 0 }

/-- `cleanup`: stop the recorder if not inactive (queueing its `stop`
event), stop the stream tracks, clear the interval, reset all state and
empty `chunksRef`. -/
def cleanup (s : State) : State :=
  let s :=
    if s.recorderActive then
      { s with recorderActive := false,
               pending := s.pending ++ [PendingTask.onstopT s.capturedRt] }
    else s
  { s with streamLive := false, isRecording := false, recordingTime := 0,
           audioBlob := none, chunks := 0 }

/-- Transition labels: a successful `startRecording` resolution (from the
open effect or the Mic button), a timer tick, the Stop button, the Cancel
button, and the head of the callback queue firing. -/
inductive Ev where
  | startGrant
  | tick
  | stopClick
  | cancelClick
  | fireTask

/-- One transition.  `startGrant` installs fresh closures capturing the
current `recordingTime` before `setRecordingTime(0)` runs.  `fireTask` runs
the oldest pending callback: the `onstop` handler builds the blob from the
chunks present *now*, stores it, and schedules the auto-send timeout; the
timeout sends `{ type:'voice', audioBlob: blob, rawDuration: recordingTime,
size, mimeType }` and calls `onClose` only if its captured
`recordingTime > 0` (the blob object itself is always truthy). -/
def step (s : State) : Ev → State
  | Ev.startGrant =>
    { s with capturedRt := s.recordingTime, streamLive := true,
             recorderActive := true, chunks := 0,
             isRecording := true, recordingTime := 0 }
  | Ev.tick =>
    if s.isRecording then
      { s with recordingTime := s.recordingTime + 1, chunks := s.chunks + 1 }
    else s
  | Ev.stopClick =>
    if s.recorderActive then
      { s with recorderActive := false,
               pending := s.pending ++ [PendingTask.onstopT s.capturedRt],
               streamLive := false, isRecording := false }
    else
      { s with streamLive := false, isRecording := false }
  | Ev.cancelClick =>
    let s := cleanup s
    { s with closeCalls := s.closeCalls + 1 }
  | Ev.fireTask =>
    match s.pending with
    | [] => s
    | PendingTask.onstopT c :: rest =>
      let b : Blob := ⟨s.chunks, "audio/webm;codecs=opus"⟩
      { s with pending := rest ++ [PendingTask.sendTimeoutT c b],
               audioBlob := some b }
    | PendingTask.sendTimeoutT c b :: rest =>
      if 0 < c then
        { s with pending := rest,
                 sent := s.sent ++
                   [{ type := "voice", rawDuration := some (c : ℚ),
                      size := b.size, mimeType := some b.type }],
                 closeCalls := s.closeCalls + 1 }
      else
        { s with pending := rest }

/-- Run a trace of events from a state. -/
def run (s : State) (evs : List Ev) : State :=
  evs.foldl step s

end P0A

namespace RecorderB

/-- `MediaRecorder.state` of the held recorder object. -/
inductive MR where
  | recording
  | paused
  | inactive
deriving DecidableEq, Repr

/-- Is a held recorder slot non-inactive? -/
def recActive : Option MR → Bool
  | some MR.recording => true
  | some MR.paused => true
  | _ => false

/-- React state and refs of the second `VoiceRecorder.jsx` variant (the
one with pause/resume and a Re-record button).  `recorder` is the
`mediaRecorderRef` slot with its `MediaRecorder.state`; `streamLive` is the
`streamRef` slot (`some true` = a stream whose tracks are live).
`leakedLive` and `leakedRec` count live streams and non-inactive recorders
that were overwritten in the refs and are therefore no longer held by the
instance.  `pendingOnstop` counts queued recorder `stop` events. -/
structure State where
  isRecording : Bool
  isPaused : Bool
  recordingTime : Nat
  audioBlob : Option Blob
  audioUrl : Bool
  duration : ℚ
  recorder : Option MR
  streamLive : Option Bool
  leakedLive : Nat
  leakedRec : Nat
  chunks : Nat
  pendingOnstop : Nat
  sent : List VoiceMessage
  closeCalls : Nat
deriving DecidableEq, Repr

/-- Closed-widget state. -/
def init : State :=
  { isRecording := false, isPaused := false, recordingTime := 0,
    audioBlob := none, audioUrl := false, duration := 0,
    recorder := none, streamLive := none, leakedLive := 0, leakedRec := 0,
    chunks := 0, pendingOnstop := 0, sent := [], closeCalls := 0 }

/-- Number of non-inactive `MediaRecorder` objects held by the instance. -/
def heldActiveRecorders (s : State) : Nat :=
  if recActive s.recorder then 1 else 0

/-- Number of live capture streams held by the instance. -/
def heldLiveStreams (s : State) : Nat :=
  match s.streamLive with
  | some true => 1
  | _ => 0

/-- `formatTime` of the recorder variants (no NaN/zero guard). -/
def formatTime (seconds : ℚ) : String :=
  toString ⌊seconds / 60⌋ ++ ":" ++
    padStart (toString ⌊jsMod seconds 60⌋) 2 '0'

/-- `handleSend` of the second variant: guarded by
`audioBlob && audioUrl`; the message carries the blob, the object URL, the
*formatted string* `duration: formatTime(duration)` and `size`, and no
`mimeType` key; then `onSend` and `onClose` are called. -/
def handleSend (s : State) : State :=
  match s.audioBlob with
  | none => s
  | some b =>
    if s.audioUrl then
      { s with
        sent := s.sent ++
          [{ type := "voice", duration := some (formatTime s.duration),
             size := b.size, hasAudioUrl := true }],
        closeCalls := s.closeCalls + 1 }
    else s

/-- `cleanup`: stop the recorder if not inactive (its state becomes
`inactive` and a `stop` event is queued), stop the stream tracks, revoke
the URL, clear the interval and reset every state hook. -/
def cleanup (s : State) : State :=
  { s with
    recorder := if recActive s.recorder then some MR.inactive else s.recorder,
    pendingOnstop := if recActive s.recorder then s.pendingOnstop + 1
                     else s.pendingOnstop,
    streamLive := s.streamLive.map (fun _ => false),
    isRecording := false, isPaused := false, recordingTime := 0,
    audioBlob := none, audioUrl := false, duration := 0, chunks := 0 }

/-- Operations on the widget: the async `startRecording` resolving
successfully or failing (permission denied, or recorder construction
throwing after the stream was stored), timer ticks, the Pause/Resume,
Stop, Cancel, Re-record buttons, unmount teardown, a queued `stop` event
firing, the preview metadata arriving, and the Send button.  Re-record runs
`cleanup()` and invokes `startRecording()` whose resolution is a later
`startResolve`. -/
inductive Op where
  | startResolve
  | startDenied
  | startCtorFail
  | tick
  | pauseClick
  | resumeClick
  | stopClick
  | cancelClick
  | rerecordClick
  | teardown
  | onstopFire
  | metadataLoaded (d : ℚ)
  | sendClick

/-- One operation of the widget. -/
def step (s : State) : Op → State
  | Op.startResolve =>
    { s with
      leakedLive := s.leakedLive + heldLiveStreams s,
      leakedRec := s.leakedRec + heldActiveRecorders s,
      streamLive := some true, recorder := some MR.recording,
      chunks := 0, isRecording := true, recordingTime := 0 }
  | Op.startDenied => { s with closeCalls := s.closeCalls + 1 }
  | Op.startCtorFail =>
    { s with leakedLive := s.leakedLive + heldLiveStreams s,
             streamLive := some true, closeCalls := s.closeCalls + 1 }
  | Op.tick =>
    if s.isRecording && !s.isPaused then
      { s with recordingTime := s.recordingTime + 1, chunks := s.chunks + 1 }
    else s
  | Op.pauseClick =>
    match s.recorder with
    | some MR.recording => { s with recorder := some MR.paused, isPaused := true }
    | _ => s
  | Op.resumeClick =>
    match s.recorder with
    | some MR.paused => { s with recorder := some MR.recording, isPaused := false }
    | _ => s
  | Op.stopClick =>
    { s with
      recorder := if recActive s.recorder then some MR.inactive else s.recorder,
      pendingOnstop := if recActive s.recorder then s.pendingOnstop + 1
                       else s.pendingOnstop,
      streamLive := s.streamLive.map (fun _ => false),
      isRecording := false, isPaused := false }
  | Op.cancelClick =>
    let s := cleanup s
    { s with closeCalls := s.closeCalls + 1 }
  | Op.rerecordClick => cleanup s
  | Op.teardown => cleanup s
  | Op.onstopFire =>
    if 0 < s.pendingOnstop then
      { s with pendingOnstop := s.pendingOnstop - 1,
               audioBlob := some ⟨s.chunks, "audio/webm"⟩,
               audioUrl := true }
    else s
  | Op.metadataLoaded d =>
    if s.audioUrl then { s with duration := d } else s
  | Op.sendClick => handleSend s

/-- Run a sequence of operations from a state. -/
def run (s : State) (ops : List Op) : State :=
  ops.foldl step s

end RecorderB

namespace P0B

/-- React state and observable call history of the second `part_000`
variant (Send button guarded by `audioBlob && recordingTime > 0`). -/
structure State where
  isRecording : Bool
  recordingTime : Nat
  audioBlob : Option Blob
  sent : List VoiceMessage
  closeCalls : Nat
deriving DecidableEq, Repr

/-- `handleSend`: only acts when `audioBlob` is non-null and
`recordingTime > 0`; the message carries the blob, the numeric
`rawDuration: recordingTime`, `size` and `mimeType`; then `onSend` and
`onClose` run. -/
def handleSend (s : State) : State :=
  match s.audioBlob with
  | none => s
  | some b =>
    if 0 < s.recordingTime then
      { s with
        sent := s.sent ++
          [{ type := "voice", rawDuration := some (s.recordingTime : ℚ),
             size := b.size, mimeType := some b.type }],
        closeCalls := s.closeCalls + 1 }
    else s

end P0B

/-- Transcription of the spec's **VoiceMessage** data-model sentence, for
comparison with the messages the code builds: the value handed to the
caller has kind `"voice"`, a numeric seconds duration, the blob's byte
count as its size and the blob's type string as its mime type. -/
def specVoiceMessageShape (b : Blob) (m : VoiceMessage) : Prop :=
  m.type = "voice" ∧ m.rawDuration.isSome = true ∧ m.size = b.size ∧
    m.mimeType = some b.type

instance (b : Blob) (m : VoiceMessage) : Decidable (specVoiceMessageShape b m) :=
  inferInstanceAs (Decidable (_ ∧ _ ∧ _ ∧ _))

/-- A sample blob used to instantiate hypotheses in witnesses. -/
def sampleBlob : Blob := ⟨4, "audio/webm"⟩

/-- A `RecorderA` state holding a completed 3-second recording. -/
def sampleA : RecorderA.State :=
  { RecorderA.init with recordingTime := 3, audioBlob := some sampleBlob,
                        audioUrl := true, duration := 3, chunks := 4 }

/-- A `RecorderB` state holding a completed 3-second recording. -/
def sampleB : RecorderB.State :=
  { RecorderB.init with recordingTime := 3, audioBlob := some sampleBlob,
                        audioUrl := true, duration := 3,
                        recorder := some RecorderB.MR.inactive,
                        streamLive := some false, chunks := 4 }

/-- A `P0B` state holding a completed 3-second recording. -/
def sampleP0B : P0B.State :=
  { isRecording := false, recordingTime := 3, audioBlob := some sampleBlob,
    sent := [], closeCalls := 0 }

/-- A `P0A` state whose callback queue starts with a pending auto-send
timeout. -/
def sampleP0A : P0A.State :=
  { P0A.init with
      pending := [P0A.PendingTask.sendTimeoutT 3 sampleBlob] }

/-! ## Helper lemmas -/

/-- The two held-session counters of `RecorderB` are bounded by the ref
slots themselves. -/
theorem RecorderB_held_le_one (s : RecorderB.State) :
    RecorderB.heldActiveRecorders s ≤ 1 ∧ RecorderB.heldLiveStreams s ≤ 1 := by
  unfold RecorderB.heldActiveRecorders RecorderB.heldLiveStreams
  constructor
  · split <;> omega
  · split <;> omega

/-- On a nonnegative number, the JS remainder by 60 has an integer floor
`⌊s⌋ - 60 * ⌊s / 60⌋`, lying in `[0, 60)`. -/
theorem floor_jsMod_sixty (s : ℚ) (h : 0 ≤ s) :
    ⌊jsMod s 60⌋ = ⌊s⌋ - 60 * ⌊s / 60⌋ ∧
      0 ≤ ⌊s⌋ - 60 * ⌊s / 60⌋ ∧ ⌊s⌋ - 60 * ⌊s / 60⌋ < 60 := by
  have h60 : (0:ℚ) < 60 := by norm_num
  have hq : (0:ℚ) ≤ s / 60 := div_nonneg h (le_of_lt h60)
  have htr : jsTrunc (s / 60) = ⌊s / 60⌋ := by simp [jsTrunc, hq]
  have heq : jsMod s 60 = s - ((60 * ⌊s / 60⌋ : ℤ) : ℚ) := by
    simp only [jsMod, htr]
    push_cast
    ring
  have hfl : ⌊jsMod s 60⌋ = ⌊s⌋ - 60 * ⌊s / 60⌋ := by
    rw [heq, Int.floor_sub_int]
  have h1 : ((⌊s / 60⌋ : ℤ) : ℚ) ≤ s / 60 := Int.floor_le _
  have h2 : s / 60 < (⌊s / 60⌋ : ℚ) + 1 := Int.lt_floor_add_one _
  have h3 : ((60 * ⌊s / 60⌋ : ℤ) : ℚ) ≤ s := by
    have := (le_div_iff₀ h60).mp h1
    push_cast
    linarith
  have h4 : s < ((60 * (⌊s / 60⌋ + 1) : ℤ) : ℚ) := by
    have := (div_lt_iff₀ h60).mp h2
    push_cast
    linarith
  have h5 : 60 * ⌊s / 60⌋ ≤ ⌊s⌋ := Int.le_floor.mpr h3
  have h6 : ⌊s⌋ < 60 * (⌊s / 60⌋ + 1) := Int.floor_lt.mpr h4
  exact ⟨hfl, by omega, by omega⟩

/-- Rendering an integer below 60 and left-padding with `'0'` to width two
gives a string of exactly two characters. -/
theorem pad_two_digits : ∀ n : Nat, n < 60 →
    (padStart (toString (n : ℤ)) 2 '0').length = 2 := by decide

/-! ## Claim theorems -/

/-- Claim C1.  The first `VoiceRecorder.jsx` variant does *not* give the
completed message a duration equal to the elapsed seconds: its `onstop`
handler runs `setDuration(recordingTime)` on the `recordingTime` value
captured when `startRecording` ran (0 at opening), so after a 3-tick
recording the Send button emits `rawDuration = 0` while the timer stood at
3 when recording stopped. -/
theorem C1_sent_duration_stale :
    (RecorderA.run RecorderA.init
        [RecorderA.Ev.openGrant, RecorderA.Ev.tick, RecorderA.Ev.tick,
         RecorderA.Ev.tick, RecorderA.Ev.stopClick, RecorderA.Ev.onstopFire,
         RecorderA.Ev.sendClick]).sent =
      [{ type := "voice", rawDuration := some 0, size := 3,
         mimeType := some "audio/webm" }] ∧
    (RecorderA.run RecorderA.init
        [RecorderA.Ev.openGrant, RecorderA.Ev.tick, RecorderA.Ev.tick,
         RecorderA.Ev.tick, RecorderA.Ev.stopClick]).recordingTime = 3 ∧
    some (0:ℚ) ≠ some (3:ℚ) := by decide

/-- Claim C2.  In the auto-send `part_000` variant, cancel does release the
capture resource (stream stopped, `onClose` called, nothing sent yet at
that point), but it does not prevent a send: after recording once for one
tick, stopping, pressing the Mic button again (its closures capture the
stale `recordingTime = 1`) and cancelling, the recorder `stop` event queued
by `cleanup` still runs the auto-send timeout, which calls `onSend` with an
empty blob and the stale one-second duration. -/
theorem C2_cancel_triggers_autosend :
    (P0A.run P0A.init
        [P0A.Ev.startGrant, P0A.Ev.tick, P0A.Ev.stopClick, P0A.Ev.fireTask,
         P0A.Ev.fireTask, P0A.Ev.startGrant, P0A.Ev.cancelClick]).sent = [] ∧
    (P0A.run P0A.init
        [P0A.Ev.startGrant, P0A.Ev.tick, P0A.Ev.stopClick, P0A.Ev.fireTask,
         P0A.Ev.fireTask, P0A.Ev.startGrant, P0A.Ev.cancelClick]).streamLive
      = false ∧
    (P0A.run P0A.init
        [P0A.Ev.startGrant, P0A.Ev.tick, P0A.Ev.stopClick, P0A.Ev.fireTask,
         P0A.Ev.fireTask, P0A.Ev.startGrant, P0A.Ev.cancelClick]).closeCalls
      = 1 ∧
    (P0A.run P0A.init
        [P0A.Ev.startGrant, P0A.Ev.tick, P0A.Ev.stopClick, P0A.Ev.fireTask,
         P0A.Ev.fireTask, P0A.Ev.startGrant, P0A.Ev.cancelClick,
         P0A.Ev.fireTask, P0A.Ev.fireTask]).sent =
      [{ type := "voice", rawDuration := some 1, size := 0,
         mimeType := some "audio/webm;codecs=opus" }] := by decide

/-- Claim C3, counterexample.  The second `VoiceRecorder.jsx` variant's
`handleSend`, run on a state holding a completed recording, emits a message
that does not have the spec's shape: its duration key holds the formatted
string and there is no numeric duration and no `mimeType` key. -/
theorem C3_message_shape_counterexample :
    (RecorderB.handleSend sampleB).sent.length = 1 ∧
    ∀ m ∈ (RecorderB.handleSend sampleB).sent,
      ¬ specVoiceMessageShape sampleBlob m := by decide

/-- Claim C3, amended.  Every message handed to `onSend` has kind
`"voice"` and the blob's byte count as its size; the variants that send a
raw duration (`RecorderA`, both `part_000` variants) attach the numeric
seconds value and the blob's type string, while the pause/resume variant
(`RecorderB`) attaches the formatted duration string and the object URL and
no mime type. -/
theorem C3_message_shape_amended :
    (∀ (s : RecorderA.State) (b : Blob), s.audioBlob = some b →
       ∃ m, (RecorderA.handleSend s).sent = s.sent ++ [m] ∧
         m.type = "voice" ∧ m.rawDuration = some s.duration ∧
         m.size = b.size ∧ m.mimeType = some b.type) ∧
    (∀ (s : P0B.State) (b : Blob), s.audioBlob = some b →
       0 < s.recordingTime →
       ∃ m, (P0B.handleSend s).sent = s.sent ++ [m] ∧
         m.type = "voice" ∧ m.rawDuration = some (s.recordingTime : ℚ) ∧
         m.size = b.size ∧ m.mimeType = some b.type) ∧
    (∀ (s : P0A.State) (c : Nat) (b : Blob) (rest : List P0A.PendingTask),
       s.pending = P0A.PendingTask.sendTimeoutT c b :: rest → 0 < c →
       ∃ m, (P0A.step s P0A.Ev.fireTask).sent = s.sent ++ [m] ∧
         m.type = "voice" ∧ m.rawDuration = some (c : ℚ) ∧
         m.size = b.size ∧ m.mimeType = some b.type) ∧
    (∀ (s : RecorderB.State) (b : Blob), s.audioBlob = some b →
       s.audioUrl = true →
       ∃ m, (RecorderB.handleSend s).sent = s.sent ++ [m] ∧
         m.type = "voice" ∧ m.rawDuration = none ∧
         m.duration = some (RecorderB.formatTime s.duration) ∧
         m.size = b.size ∧ m.mimeType = none ∧ m.hasAudioUrl = true) := by
  refine ⟨?_, ?_, ?_, ?_⟩
  · intro s b hb
    refine ⟨{ type := "voice", rawDuration := some s.duration,
              size := b.size, mimeType := some b.type }, ?_, rfl, rfl, rfl, rfl⟩
    simp [RecorderA.handleSend, hb]
  · intro s b hb ht
    refine ⟨{ type := "voice", rawDuration := some (s.recordingTime : ℚ),
              size := b.size, mimeType := some b.type }, ?_, rfl, rfl, rfl, rfl⟩
    simp [P0B.handleSend, hb, ht]
  · intro s c b rest hp hc
    refine ⟨{ type := "voice", rawDuration := some (c : ℚ),
              size := b.size, mimeType := some b.type }, ?_, rfl, rfl, rfl, rfl⟩
    simp [P0A.step, hp, hc]
  · intro s b hb hu
    refine ⟨{ type := "voice", duration := some (RecorderB.formatTime s.duration),
              size := b.size, hasAudioUrl := true }, ?_, rfl, rfl, rfl, rfl, rfl, rfl⟩
    simp [RecorderB.handleSend, hb, hu]

/-- Witness for C3's amended theorem at a concrete completed recording. -/
theorem C3_message_shape_amended_witness :
    sampleA.audioBlob = some sampleBlob ∧
    (∃ m, (RecorderA.handleSend sampleA).sent = sampleA.sent ++ [m] ∧
       m.type = "voice" ∧ m.rawDuration = some sampleA.duration ∧
       m.size = sampleBlob.size ∧ m.mimeType = some sampleBlob.type) :=
  ⟨rfl, C3_message_shape_amended.1 sampleA sampleBlob rfl⟩

/-- Claim C4.  `startRecording` has exactly two outcomes: either it
transitions to recording (with the timer reset to 0 and no alert or close),
or an exception reached the `catch` block, which alerts and closes the
widget (leaving the recording flags and call history as they were). -/
theorem C4_open_two_outcomes (s : RecorderA.State) (granted ctorOk : Bool) :
    ((RecorderA.startRecording s granted ctorOk).1.isRecording = true ∧
     (RecorderA.startRecording s granted ctorOk).1.recordingTime = 0 ∧
     (RecorderA.startRecording s granted ctorOk).2 = []) ∨
    (Effect.alertE ∈ (RecorderA.startRecording s granted ctorOk).2 ∧
     Effect.closeE ∈ (RecorderA.startRecording s granted ctorOk).2 ∧
     (RecorderA.startRecording s granted ctorOk).1.isRecording =
       s.isRecording ∧
     (RecorderA.startRecording s granted ctorOk).1.sent = s.sent) := by
  cases granted <;> cases ctorOk <;>
    simp [RecorderA.startRecording]

/-- Claim C5.  A seek click at any horizontal position (the fraction
`clickX / width` may lie outside `[0,1]`) leaves the audio element's
position inside `[0, duration]`, because the platform's `currentTime`
setter clamps the requested value; when the known duration is 0 (its
initial, not-yet-loaded value) or the element is absent, the handler
changes nothing. -/
theorem C5_seek_clamped (clickX width : ℚ) (s : VoicePlayer.PState)
    (a : VoicePlayer.AudioEl) (hd : 0 ≤ a.duration) :
    (s.audioDuration = 0 →
      VoicePlayer.handleSeek clickX width s (some a) = (s, some a)) ∧
    (s.audioDuration ≠ 0 →
      ∃ t : ℚ,
        (VoicePlayer.handleSeek clickX width s (some a)).2 =
          some { a with currentTime := t } ∧ 0 ≤ t ∧ t ≤ a.duration) ∧
    VoicePlayer.handleSeek clickX width s none = (s, none) := by
  refine ⟨?_, ?_, rfl⟩
  · intro h0
    simp [VoicePlayer.handleSeek, h0]
  · intro h0
    refine ⟨max 0 (min (clickX / width * s.audioDuration) a.duration),
            ?_, le_max_left _ _, max_le hd (min_le_right _ _)⟩
    simp [VoicePlayer.handleSeek, h0, VoicePlayer.setCurrentTime]

/-- Witness for C5 at a click left of the bar (`clickX = -5`) on a
3-second clip. -/
theorem C5_seek_clamped_witness :
    (0:ℚ) ≤ (VoicePlayer.initAudio 3).duration ∧
    ((({ VoicePlayer.init with audioDuration := 3 } :
          VoicePlayer.PState).audioDuration = 0 →
       VoicePlayer.handleSeek (-5) 2
         { VoicePlayer.init with audioDuration := 3 }
         (some (VoicePlayer.initAudio 3)) =
         ({ VoicePlayer.init with audioDuration := 3 },
          some (VoicePlayer.initAudio 3))) ∧
     (({ VoicePlayer.init with audioDuration := 3 } :
          VoicePlayer.PState).audioDuration ≠ 0 →
       ∃ t : ℚ,
         (VoicePlayer.handleSeek (-5) 2
            { VoicePlayer.init with audioDuration := 3 }
            (some (VoicePlayer.initAudio 3))).2 =
           some { VoicePlayer.initAudio 3 with currentTime := t } ∧
         0 ≤ t ∧ t ≤ (VoicePlayer.initAudio 3).duration) ∧
     VoicePlayer.handleSeek (-5) 2
       { VoicePlayer.init with audioDuration := 3 } none =
       ({ VoicePlayer.init with audioDuration := 3 }, none)) :=
  ⟨by decide,
   C5_seek_clamped (-5) 2 { VoicePlayer.init with audioDuration := 3 }
     (VoicePlayer.initAudio 3) (by decide)⟩

/-- Claim C6.  On any synced player state (the element's `muted` flag
agrees with the React `isMuted` state, which holds initially and after
every toggle), toggling mute twice is the identity on the whole
state/element pair; moreover a single toggle always re-establishes the
sync, the initial state is synced, and a toggle without an element changes
nothing. -/
theorem C6_toggleMute_double_identity :
    (∀ (s : VoicePlayer.PState) (a : VoicePlayer.AudioEl),
       a.muted = s.isMuted →
       VoicePlayer.toggleMute (VoicePlayer.toggleMute (s, some a)) =
         (s, some a)) ∧
    (∀ (s : VoicePlayer.PState) (a : VoicePlayer.AudioEl),
       (VoicePlayer.toggleMute (s, some a)).2 =
         some { a with
                  muted := (VoicePlayer.toggleMute (s, some a)).1.isMuted }) ∧
    (∀ d : ℚ, (VoicePlayer.initAudio d).muted = VoicePlayer.init.isMuted) ∧
    (∀ s : VoicePlayer.PState,
       VoicePlayer.toggleMute (s, none) = (s, none)) := by
  refine ⟨?_, ?_, fun d => rfl, fun s => rfl⟩
  · intro s a h
    obtain ⟨sp, sc, sd, sm, sl⟩ := s
    obtain ⟨ac, ad, am, apd⟩ := a
    simp only at h
    subst h
    simp [VoicePlayer.toggleMute, Bool.not_not]
  · intro s a
    simp [VoicePlayer.toggleMute]

/-- Witness for C6 on the freshly mounted player. -/
theorem C6_toggleMute_double_identity_witness :
    VoicePlayer.toggleMute
        (VoicePlayer.toggleMute
          (VoicePlayer.init, some (VoicePlayer.initAudio 5))) =
      (VoicePlayer.init, some (VoicePlayer.initAudio 5)) :=
  C6_toggleMute_double_identity.1 VoicePlayer.init
    (VoicePlayer.initAudio 5) rfl

/-- Claim C8.  Failures other than device denial only log: `handleError`
clears the loading flag and logs, nothing else; a rejected `play()` leaves
the React state exactly as a successful one (the `.catch` handler touches
no state) and adds only a log to the single play attempt — in particular no
alert, no `onClose`, no `onSend` and no second play request, in either the
player or the first recorder variant's `playAudio`. -/
theorem C8_other_failures_logged_only (s : VoicePlayer.PState)
    (a : VoicePlayer.AudioEl) (r : Bool) :
    VoicePlayer.handleError s = ({ s with isLoading := false }, [Effect.logE]) ∧
    (VoicePlayer.togglePlayPause s (some a) true).1 =
      (VoicePlayer.togglePlayPause s (some a) false).1 ∧
    Effect.alertE ∉ (VoicePlayer.togglePlayPause s (some a) r).2.2 ∧
    Effect.closeE ∉ (VoicePlayer.togglePlayPause s (some a) r).2.2 ∧
    Effect.sendE ∉ (VoicePlayer.togglePlayPause s (some a) r).2.2 ∧
    (VoicePlayer.togglePlayPause s (some a) r).2.2.count Effect.playE ≤ 1 ∧
    (RecorderA.playAudio true).1 = (RecorderA.playAudio false).1 ∧
    (RecorderA.playAudio r).2.count Effect.playE ≤ 1 ∧
    Effect.alertE ∉ (RecorderA.playAudio r).2 ∧
    Effect.closeE ∉ (RecorderA.playAudio r).2 ∧
    Effect.sendE ∉ (RecorderA.playAudio r).2 := by
  cases r <;> cases h : s.isPlaying <;>
    simp [VoicePlayer.handleError, VoicePlayer.togglePlayPause,
          RecorderA.playAudio, h, List.count_cons]

/-- A recorder slot whose `MediaRecorder.state` is `inactive` is not an
active session. -/
theorem recActive_some_inactive :
    RecorderB.recActive (some RecorderB.MR.inactive) = false := rfl

/-- Claim C7.  The instance holds at most one non-inactive recorder and
one live stream: this holds on every run from the closed widget, is
preserved by every operation, and the stopping operations (Stop, Cancel,
Re-record's `cleanup`, teardown) always leave zero active held sessions. -/
theorem C7_at_most_one_session :
    (∀ ops : List RecorderB.Op,
       RecorderB.heldActiveRecorders (RecorderB.run RecorderB.init ops) ≤ 1 ∧
       RecorderB.heldLiveStreams (RecorderB.run RecorderB.init ops) ≤ 1) ∧
    (∀ (s : RecorderB.State) (op : RecorderB.Op),
       RecorderB.heldActiveRecorders s ≤ 1 →
       RecorderB.heldLiveStreams s ≤ 1 →
       RecorderB.heldActiveRecorders (RecorderB.step s op) ≤ 1 ∧
       RecorderB.heldLiveStreams (RecorderB.step s op) ≤ 1) ∧
    (∀ s : RecorderB.State,
       RecorderB.heldActiveRecorders
         (RecorderB.step s RecorderB.Op.stopClick) = 0 ∧
       RecorderB.heldLiveStreams
         (RecorderB.step s RecorderB.Op.stopClick) = 0 ∧
       RecorderB.heldActiveRecorders
         (RecorderB.step s RecorderB.Op.cancelClick) = 0 ∧
       RecorderB.heldLiveStreams
         (RecorderB.step s RecorderB.Op.cancelClick) = 0 ∧
       RecorderB.heldActiveRecorders
         (RecorderB.step s RecorderB.Op.rerecordClick) = 0 ∧
       RecorderB.heldLiveStreams
         (RecorderB.step s RecorderB.Op.rerecordClick) = 0 ∧
       RecorderB.heldActiveRecorders
         (RecorderB.step s RecorderB.Op.teardown) = 0 ∧
       RecorderB.heldLiveStreams
         (RecorderB.step s RecorderB.Op.teardown) = 0) := by
  have hclean : ∀ s : RecorderB.State,
      RecorderB.heldActiveRecorders (RecorderB.cleanup s) = 0 ∧
      RecorderB.heldLiveStreams (RecorderB.cleanup s) = 0 := by
    intro s
    constructor
    · cases hr : RecorderB.recActive s.recorder <;>
        simp [RecorderB.cleanup, RecorderB.heldActiveRecorders, hr,
              recActive_some_inactive]
    · cases hs : s.streamLive <;>
        simp [RecorderB.cleanup, RecorderB.heldLiveStreams, hs]
  refine ⟨fun ops => RecorderB_held_le_one _,
          fun s op _ _ => RecorderB_held_le_one _, ?_⟩
  intro s
  have h1 := hclean s
  refine ⟨?_, ?_, h1.1, h1.2, h1.1, h1.2, h1.1, h1.2⟩
  · cases hr : RecorderB.recActive s.recorder <;>
      simp [RecorderB.step, RecorderB.heldActiveRecorders, hr,
            recActive_some_inactive]
  · cases hs : s.streamLive <;>
      simp [RecorderB.step, RecorderB.heldLiveStreams, hs]

/-- Witness for C7's preservation part at a concrete completed-recording
state and a `startRecording` resolution. -/
theorem C7_at_most_one_session_witness :
    RecorderB.heldActiveRecorders sampleB ≤ 1 ∧
    RecorderB.heldLiveStreams sampleB ≤ 1 ∧
    (RecorderB.heldActiveRecorders
        (RecorderB.step sampleB RecorderB.Op.startResolve) ≤ 1 ∧
     RecorderB.heldLiveStreams
        (RecorderB.step sampleB RecorderB.Op.startResolve) ≤ 1) :=
  ⟨by decide, by decide,
   C7_at_most_one_session.2.1 sampleB RecorderB.Op.startResolve
     (by decide) (by decide)⟩

/-- Claim C9.  For every finite nonnegative input, the player's
`formatTime` is the minutes/seconds formula with a seconds part that is a
two-character zero-padded rendering of an integer in `[0, 60)`; NaN and 0
both yield `"0:00"`. -/
theorem C9_formatTime_shape (s : ℚ) (h : 0 ≤ s) :
    VoicePlayer.formatTime (some s) =
      toString ⌊s / 60⌋ ++ ":" ++ padStart (toString ⌊jsMod s 60⌋) 2 '0' ∧
    0 ≤ ⌊jsMod s 60⌋ ∧ ⌊jsMod s 60⌋ < 60 ∧
    (padStart (toString ⌊jsMod s 60⌋) 2 '0').length = 2 ∧
    VoicePlayer.formatTime none = "0:00" ∧
    VoicePlayer.formatTime (some 0) = "0:00" := by
  obtain ⟨hfl, hge, hlt⟩ := floor_jsMod_sixty s h
  have hge' : 0 ≤ ⌊jsMod s 60⌋ := by rw [hfl]; exact hge
  have hlt' : ⌊jsMod s 60⌋ < 60 := by rw [hfl]; exact hlt
  have hlen : (padStart (toString ⌊jsMod s 60⌋) 2 '0').length = 2 := by
    have hcast : ((⌊jsMod s 60⌋.toNat : ℕ) : ℤ) = ⌊jsMod s 60⌋ :=
      Int.toNat_of_nonneg hge'
    rw [← hcast]
    exact pad_two_digits _ (by omega)
  refine ⟨?_, hge', hlt', hlen, rfl, by decide⟩
  by_cases hs : s = 0
  · subst hs
    have h1 : ⌊(0:ℚ) / 60⌋ = 0 := by norm_num
    have h2 : jsMod 0 60 = 0 := by simp [jsMod, jsTrunc]
    rw [h2, h1, Int.floor_zero]
    decide
  · simp [VoicePlayer.formatTime, hs]

/-- Witness for C9 at 125 seconds (rendered as `2:05`). -/
theorem C9_formatTime_shape_witness :
    (0:ℚ) ≤ 125 ∧
    (VoicePlayer.formatTime (some 125) =
       toString ⌊(125:ℚ) / 60⌋ ++ ":" ++
         padStart (toString ⌊jsMod 125 60⌋) 2 '0' ∧
     0 ≤ ⌊jsMod (125:ℚ) 60⌋ ∧ ⌊jsMod (125:ℚ) 60⌋ < 60 ∧
     (padStart (toString ⌊jsMod (125:ℚ) 60⌋) 2 '0').length = 2 ∧
     VoicePlayer.formatTime none = "0:00" ∧
     VoicePlayer.formatTime (some 0) = "0:00") :=
  ⟨by decide, C9_formatTime_shape 125 (by decide)⟩

/-- Claim C10.  With no completed blob, the Send action is a strict no-op
in the first `VoiceRecorder.jsx` variant, and likewise in the `part_000`
variant that additionally requires a nonzero elapsed time. -/
theorem C10_send_noop_without_blob :
    (∀ s : RecorderA.State, s.audioBlob = none → RecorderA.handleSend s = s) ∧
    (∀ s : P0B.State, s.audioBlob = none ∨ s.recordingTime = 0 →
       P0B.handleSend s = s) := by
  constructor
  · intro s hb
    simp [RecorderA.handleSend, hb]
  · intro s h
    rcases h with hb | ht
    · simp [P0B.handleSend, hb]
    · cases hb : s.audioBlob with
      | none => simp [P0B.handleSend, hb]
      | some b => simp [P0B.handleSend, hb, ht]

/-- Witness for C10 on the closed widget and on a blob-present state whose
timer reads zero. -/
theorem C10_send_noop_without_blob_witness :
    (RecorderA.init.audioBlob = none ∧
     RecorderA.handleSend RecorderA.init = RecorderA.init) ∧
    (({ sampleP0B with recordingTime := 0 } : P0B.State).recordingTime = 0 ∧
     P0B.handleSend { sampleP0B with recordingTime := 0 } =
       { sampleP0B with recordingTime := 0 }) :=
  ⟨⟨rfl, C10_send_noop_without_blob.1 RecorderA.init rfl⟩,
   ⟨rfl, C10_send_noop_without_blob.2 _ (Or.inr rfl)⟩⟩
